import Mathlib

/-!
Verification of the record-store coordinator of `if.u.service`.

The development shallowly embeds the Python modules cited by the claims:

* `src/storage/people_store.py` — `PeopleORM`, `PeopleStore.save / find / query /
  search / delete`;
* `src/utils/rldb.py` — `SqlAlchemyDB.get / upsert / query / delete`;
* `src/utils/obs.py` — `Koodo.List / Del`;
* `src/services/custom.py` — `CustomService.save / delete / get / update_comment /
  delete_comment`;
* `src/models/custom.py`, `src/models/comment.py` — the `Custom` and `Comment` models.

Database tables are lists of rows in the backend's return order; timestamps are
naturals supplied by the caller (standing for `func.now()`); Python exceptions are
`Except`; backend (vector-index / object-storage) behaviour that the coordinator
only observes is passed in as an explicit outcome parameter.  Python's `list.sort`
is a stable sort for a total preorder; a stable sort's output is uniquely
determined by the key order and the input order, so it is modelled by the (stable)
`List.insertionSort`.
-/

namespace IfU

/-- JSON values as produced by Python's `json.loads`.  The empty Python dict `{}`
is `Json.obj []`. -/
inductive Json where
  | null : Json
  | bool (b : Bool) : Json
  | num (n : Int) : Json
  | str (s : String) : Json
  | arr (xs : List Json) : Json
  | obj (fields : List (String × Json)) : Json

/-- The `People` business object (`models/people.py`, class `People`) as produced by
`PeopleORM.to_people`: scalar columns are copied through unchanged (nullable columns
stay optional), the `introduction` / `comments` JSON text columns are decoded. -/
structure People where
  id : String
  name : Option String
  contact : Option String
  gender : Option String
  age : Option Int
  height : Option Int
  marital_status : Option String
  match_requirement : Option String
  introduction : Json
  comments : Json
  cover : Option String

/-- A row of the `peoples` table (`PeopleORM` in `storage/people_store.py`).
`introduction` and `comments` are `Text` columns holding JSON strings. -/
structure PeopleRow where
  id : String
  name : Option String
  contact : Option String
  gender : Option String
  age : Option Int
  height : Option Int
  marital_status : Option String
  match_requirement : Option String
  introduction : Option String
  comments : Option String
  cover : Option String
  created_at : Nat
  updated_at : Nat
  deleted_at : Option Nat
deriving DecidableEq, Repr

/-- The `try: json.loads(col) if col else {} except: {}` pattern of
`PeopleORM.to_people`: a NULL or empty column, or a column the parser rejects
(`parse` returns `none` where Python raises), decodes to the empty dict. -/
def loadsOrEmpty (parse : String → Option Json) (col : Option String) : Json :=
  match col with
  | none => Json.obj []
  | some s => if s = "" then Json.obj [] else (parse s).getD (Json.obj [])

/-- `PeopleORM.to_people` (storage/people_store.py): copy every column through and
decode the two JSON text columns, defaulting to the empty dict on any decode
failure.  `parse` stands for Python's `json.loads` (`none` models a raised
`JSONDecodeError`). -/
def toPeople (parse : String → Option Json) (r : PeopleRow) : People :=
  { id := r.id
    name := r.name
    contact := r.contact
    gender := r.gender
    age := r.age
    height := r.height
    marital_status := r.marital_status
    match_requirement := r.match_requirement
    introduction := loadsOrEmpty parse r.introduction
    comments := loadsOrEmpty parse r.comments
    cover := r.cover }

/-- `PeopleORM.parse_from_people` combined with the server-side column defaults
applied on INSERT (`created_at` / `updated_at` = `func.now()`, `deleted_at` NULL).
`dumps` stands for Python's `json.dumps`. -/
def parseFromPeople (dumps : Json → String) (now : Nat) (p : People) : PeopleRow :=
  { id := p.id
    name := p.name
    contact := p.contact
    gender := p.gender
    age := p.age
    height := p.height
    marital_status := p.marital_status
    match_requirement := p.match_requirement
    introduction := some (dumps p.introduction)
    comments := some (dumps p.comments)
    cover := p.cover
    created_at := now
    updated_at := now
    deleted_at := none }

/-- The relational step of `PeopleStore.save`: `session.add` + `session.commit`,
an unconditional INSERT.  A second row with an existing primary key violates the
unique constraint and the commit raises `IntegrityError`. -/
def peopleInsert (dumps : Json → String) (now : Nat) (st : List PeopleRow)
    (p : People) : Except String (List PeopleRow) :=
  if st.any (fun r => decide (r.id = p.id)) then
    Except.error "IntegrityError: duplicate primary key"
  else
    Except.ok (st ++ [parseFromPeople dumps now p])

/-- `PeopleStore.save` (storage/people_store.py lines 81–115).  `genId` is the
`uuid.uuid4().hex` drawn when `people.id` is empty.  `vsdbRes` is the outcome of
`self.vsdb.insert(...)`: `Except.error` models the call raising, `Except.ok l`
models it returning the id list `l`; the code raises `Exception("insert failed")`
itself when that list is empty.  The OBS `Put` of step 3 returns `""` on failure
and is never checked, so it does not influence the result.  Returns the post-state
of the `peoples` table (the relational INSERT commits before step 2) together with
the returned id or the raised exception. -/
def peopleSave (dumps : Json → String) (now : Nat) (genId : String)
    (vsdbRes : Except Unit (List String)) (st : List PeopleRow) (p : People) :
    List PeopleRow × Except String String :=
  let pid := if p.id = "" then genId else p.id
  let p1 := { p with id := pid }
  match peopleInsert dumps now st p1 with
  | Except.error e => (st, Except.error e)
  | Except.ok st1 =>
    match vsdbRes with
    | Except.error _ => (st1, Except.error "vsdb insert raised")
    | Except.ok results =>
      if results.length = 0 then (st1, Except.error "insert failed")
      else (st1, Except.ok pid)

/-- `PeopleStore.find`: first row with the given id and `deleted_at IS NULL`,
rehydrated; the code raises "people not found" when there is none, modelled as
`none`. -/
def peopleFind (parse : String → Option Json) (st : List PeopleRow)
    (pid : String) : Option People :=
  (st.find? (fun r => decide (r.id = pid) && decide (r.deleted_at = none))).map
    (toPeople parse)

/-- An equality filter usable as a `filter_by(**conds)` keyword for the `peoples`
table. -/
inductive PCond where
  | idc (v : String) : PCond
  | name (v : Option String) : PCond
  | contact (v : Option String) : PCond
  | gender (v : Option String) : PCond
  | age (v : Option Int) : PCond
  | height (v : Option Int) : PCond
  | marital_status (v : Option String) : PCond
  | cover (v : Option String) : PCond
deriving DecidableEq

/-- Satisfaction of one `filter_by` equality condition by a row. -/
def pcondHolds (r : PeopleRow) : PCond → Bool
  | PCond.idc v => decide (r.id = v)
  | PCond.name v => decide (r.name = v)
  | PCond.contact v => decide (r.contact = v)
  | PCond.gender v => decide (r.gender = v)
  | PCond.age v => decide (r.age = v)
  | PCond.height v => decide (r.height = v)
  | PCond.marital_status v => decide (r.marital_status = v)
  | PCond.cover v => decide (r.cover = v)

/-- Sort relation of the Python `sort(key=lambda orm: orm.created_at, reverse=True)`
calls: `created_at` descending. -/
def createdGe (r s : PeopleRow) : Prop :=
  s.created_at ≤ r.created_at

instance : DecidableRel createdGe :=
  fun r s => inferInstanceAs (Decidable (s.created_at ≤ r.created_at))

instance : IsTotal PeopleRow createdGe :=
  ⟨fun r s => le_total s.created_at r.created_at⟩

instance : IsTrans PeopleRow createdGe :=
  ⟨fun _ _ _ h1 h2 => le_trans h2 h1⟩

/-- Row-level part of `PeopleStore.query` (lines 137–153): WHERE `conds` and
`deleted_at IS NULL`, then `LIMIT limit OFFSET offset` (SQL applies OFFSET before
LIMIT; with no ORDER BY the selected page follows the backend's row order, here
the order of `st`), then the Python-side stable in-place sort by `created_at`
descending. -/
def peopleQueryRows (st : List PeopleRow) (conds : List PCond)
    (limit offset : Nat) : List PeopleRow :=
  let sel := st.filter (fun r => conds.all (pcondHolds r) && decide (r.deleted_at = none))
  let page := (sel.drop offset).take limit
  page.insertionSort createdGe

/-- `PeopleStore.query`: the selected rows rehydrated via `to_people`. -/
def peopleQuery (parse : String → Option Json) (st : List PeopleRow)
    (conds : List PCond) (limit offset : Nat) : List People :=
  (peopleQueryRows st conds limit offset).map (toPeople parse)

/-- Last index at which `x` occurs in the list, starting the count at `i`.
A Python dict comprehension `{pid: idx for idx, pid in enumerate(l)}` maps each
key to its last index, later bindings overwriting earlier ones. -/
def lastIdxFrom (x : String) : List String → Nat → Option Nat
  | [], _ => none
  | y :: ys, i =>
    match lastIdxFrom x ys (i + 1) with
    | some j => some j
    | none => if y = x then some i else none

/-- The `order_map.get(id, len(order_map))` lookup of `PeopleStore.search`:
the (last) index of `x` in `pids`, defaulting to the number of distinct entries
of `pids` (the size of the dict). -/
def orderMapGet (pids : List String) (x : String) : Nat :=
  match lastIdxFrom x pids 0 with
  | some i => i
  | none => pids.dedup.length

/-- One entry of the list returned by `vsdb.search` in `PeopleStore.search`; the
code reads only `result.get('id', '')`. -/
structure Hit where
  id : String
  distance : Int
deriving DecidableEq, Repr

/-- The `people_id_list` loop of `PeopleStore.search`: ids of the hits in rank
order, empty ids skipped. -/
def hitIds (hits : List Hit) : List String :=
  (hits.map Hit.id).filter (fun s => decide (s ≠ ""))

/-- The batch load of `PeopleStore.search`: `id IN people_id_list` and
`deleted_at IS NULL`, rows in the backend's return order. -/
def searchLoad (pids : List String) (st : List PeopleRow) : List PeopleRow :=
  st.filter (fun r => decide (r.id ∈ pids) && decide (r.deleted_at = none))

/-- Sort relation of the final reordering of `PeopleStore.search`:
`order_map.get(orm.id, len(order_map))` ascending. -/
def rankLe (pids : List String) (r s : PeopleRow) : Prop :=
  orderMapGet pids r.id ≤ orderMapGet pids s.id

instance (pids : List String) : DecidableRel (rankLe pids) :=
  fun r s => inferInstanceAs (Decidable (orderMapGet pids r.id ≤ orderMapGet pids s.id))

instance (pids : List String) : IsTotal PeopleRow (rankLe pids) :=
  ⟨fun r s => le_total (orderMapGet pids r.id) (orderMapGet pids s.id)⟩

instance (pids : List String) : IsTrans PeopleRow (rankLe pids) :=
  ⟨fun _ _ _ h1 h2 => le_trans h1 h2⟩

/-- Row-level part of `PeopleStore.search` (lines 155–187): collect the non-empty
hit ids, batch-load the live rows, stable-sort them by `created_at` descending,
then stable-sort them again by the rank `order_map` assigns to their id. -/
def peopleSearchRows (hits : List Hit) (st : List PeopleRow) : List PeopleRow :=
  let pids := hitIds hits
  let loaded := searchLoad pids st
  (loaded.insertionSort createdGe).insertionSort (rankLe pids)

/-- `PeopleStore.search`: the reordered rows rehydrated via `to_people`. -/
def peopleSearch (parse : String → Option Json) (hits : List Hit)
    (st : List PeopleRow) : List People :=
  (peopleSearchRows hits st).map (toPeople parse)

/-- Step 1 of `PeopleStore.delete`: `UPDATE peoples SET deleted_at = now() WHERE
id = pid AND deleted_at IS NULL` (matching zero rows is not an error). -/
def softDeletePeoples (now : Nat) (st : List PeopleRow) (pid : String) :
    List PeopleRow :=
  st.map (fun r =>
    if r.id = pid ∧ r.deleted_at = none then { r with deleted_at := some now } else r)

/-- Python `str.replace(pat, rep)` on character lists, with fuel for termination;
an empty pattern is left untouched (the callers below always pass a non-empty
pattern). -/
def replaceAllAux (pat rep : List Char) : Nat → List Char → List Char
  | 0, s => s
  | _ + 1, [] => []
  | fuel + 1, ch :: rest =>
    if pat ≠ [] ∧ pat.isPrefixOf (ch :: rest) then
      rep ++ replaceAllAux pat rep fuel ((ch :: rest).drop pat.length)
    else
      ch :: replaceAllAux pat rep fuel rest

/-- Python `s.replace(pat, rep)` for a non-empty pattern. -/
def pyReplace (s pat rep : String) : String :=
  String.mk (replaceAllAux pat.data rep.data s.data.length s.data)

/-- Whether `p` is a prefix of `s`, computed on the character lists. -/
def strIsPrefixOf (p s : String) : Bool :=
  p.data.isPrefixOf s.data

/-- `Koodo.List` (utils/obs.py lines 124–144): list the bucket keys under
`pfxPath ++ p` (a single page of `bucket.list`) and strip the full prefix from
each returned key via `str.replace`.  `archive` is the bucket content (full object
keys). -/
def koodoList (pfxPath : String) (archive : List String) (p : String) :
    List String :=
  let fullp := pfxPath ++ p
  (archive.filter (fun k => strIsPrefixOf fullp k)).map (fun k => pyReplace k fullp "")

/-- `Koodo.Del` (utils/obs.py lines 146–162): delete the single object whose key
is `pfxPath ++ p`; a missing object merely makes `Del` return `False`, which the
caller ignores. -/
def koodoDel (pfxPath : String) (archive : List String) (p : String) :
    List String :=
  archive.filter (fun k => decide (k ≠ pfxPath ++ p))

/-- Steps 2–3 of `PeopleStore.delete` run after the relational soft delete:
`vsdbDel` is the outcome of `self.vsdb.delete(ids=[people_id])` and `obsListOk`
whether `self.obs.List(...)` succeeds; neither call is wrapped in `try`, so a
raise propagates out of `delete`.  Returns the post-states of the `peoples` table
and of the OBS bucket, and the reported outcome. -/
def peopleDelete (now : Nat) (st : List PeopleRow) (archive : List String)
    (pfxPath : String) (vsdbDel : Except Unit Unit) (obsListOk : Bool)
    (pid : String) : List PeopleRow × List String × Except String Unit :=
  let st1 := softDeletePeoples now st pid
  match vsdbDel with
  | Except.error _ => (st1, archive, Except.error "vsdb delete raised")
  | Except.ok _ =>
    if obsListOk then
      let keys := koodoList pfxPath archive ("peoples/" ++ pid ++ "/")
      (st1, keys.foldl (fun a k => koodoDel pfxPath a k) archive, Except.ok ())
    else (st1, archive, Except.error "obs list raised")

/-- The error taxonomy of `utils/error.py` (`ErrorCode`). -/
inductive ErrorCode where
  | SUCCESS : ErrorCode
  | MODEL_ERROR : ErrorCode
  | MODEL_FIELD_ERROR : ErrorCode
  | MODEL_NOT_FOUND : ErrorCode
  | PERMISSION_DENIED : ErrorCode
  | RLDB_ERROR : ErrorCode
  | RLDB_NOT_FOUND : ErrorCode
  | OBS_ERROR : ErrorCode
  | OBS_INPUT_ERROR : ErrorCode
  | OBS_SERVICE_ERROR : ErrorCode
deriving DecidableEq, Repr

/-- Numeric values of `ErrorCode` (utils/error.py). -/
def ErrorCode.val : ErrorCode → Nat
  | ErrorCode.SUCCESS => 0
  | ErrorCode.MODEL_ERROR => 1000
  | ErrorCode.MODEL_FIELD_ERROR => 1001
  | ErrorCode.MODEL_NOT_FOUND => 1002
  | ErrorCode.PERMISSION_DENIED => 1403
  | ErrorCode.RLDB_ERROR => 2100
  | ErrorCode.RLDB_NOT_FOUND => 2101
  | ErrorCode.OBS_ERROR => 3100
  | ErrorCode.OBS_INPUT_ERROR => 3102
  | ErrorCode.OBS_SERVICE_ERROR => 3103

/-- The `error` object of `utils/error.py`: a numeric code and a message. -/
structure err where
  code : Nat
  info : String
deriving DecidableEq, Repr

/-- The `error(code, info)` constructor. -/
def error (ec : ErrorCode) (info : String) : err :=
  { code := ec.val, info := info }

/-- The `success` property of `error`. -/
def err.success (e : err) : Bool :=
  decide (e.code = 0)

/-- A comment on a custom record (`models/comment.py`, class `Comment`); also
the key/value data of the JSON object that `Comment.to_dict` produces and the
`comments` Text column stores. -/
structure Comment where
  id : String
  user_id : String
  content : String
  created_at : Nat
  updated_at : Nat
deriving DecidableEq, Repr

/-- A Python value sitting in the `comments` list of a `Custom` business object.
`obj` is a `models.comment.Comment` instance, on which attribute access such as
`comment.id` works.  `dictData` is a plain `dict` as returned by `json.loads`
(its payload records the decoded key/values of a stored comment object):
`Custom.from_rldb_model` produces only these, never `Comment` instances, and
attribute access on them raises `AttributeError`. -/
inductive PyCommentElem where
  | obj (cm : Comment) : PyCommentElem
  | dictData (cm : Comment) : PyCommentElem
deriving DecidableEq, Repr

/-- A row of the `customs` table (`CustomRLDBModel` in `models/custom.py`).
The JSON text columns (`images`, `introductions`, `comments`) are modelled by
their decoded values; `comments` holds the data of the stored JSON array of
comment dicts (at runtime these decode to plain dicts — see `PyCommentElem` and
`fromRLDBModel`). -/
structure CustomRow where
  id : String
  user_id : String
  name : String
  gender : String
  birth : Int
  phone : String
  email : String
  height : Int
  weight : Int
  images : List String
  scores : Int
  degree : String
  academy : String
  occupation : String
  income : Int
  assets : Int
  current_assets : Int
  house : String
  car : String
  registered_city : String
  live_city : String
  native_place : String
  original_family : String
  is_single_child : Bool
  match_requirement : String
  introductions : List (String × String)
  custom_level : String
  comments : List Comment
  is_public : Bool
  created_at : Nat
  updated_at : Nat
  deleted_at : Option Nat
deriving DecidableEq, Repr

/-- The `Custom` business object (`models/custom.py`, class `Custom`); it carries
no `updated_at` / `deleted_at`, and `created_at` only when loaded from a row.
`comments` is an untyped Python list: loading from the database yields plain
dicts, while in-memory code could hold `Comment` instances. -/
structure Custom where
  id : String
  user_id : String
  name : String
  gender : String
  birth : Int
  phone : String
  email : String
  height : Int
  weight : Int
  images : List String
  scores : Int
  degree : String
  academy : String
  occupation : String
  income : Int
  assets : Int
  current_assets : Int
  house : String
  car : String
  registered_city : String
  live_city : String
  native_place : String
  original_family : String
  is_single_child : Bool
  match_requirement : String
  introductions : List (String × String)
  custom_level : String
  comments : List PyCommentElem
  is_public : Bool
  created_at : Option Nat
deriving DecidableEq, Repr

/-- `Custom.from_rldb_model`: copy every column (including `created_at`) into the
business object, decoding the JSON columns. -/
def fromRLDBModel (r : CustomRow) : Custom :=
  { id := r.id
    user_id := r.user_id
    name := r.name
    gender := r.gender
    birth := r.birth
    phone := r.phone
    email := r.email
    height := r.height
    weight := r.weight
    images := r.images
    scores := r.scores
    degree := r.degree
    academy := r.academy
    occupation := r.occupation
    income := r.income
    assets := r.assets
    current_assets := r.current_assets
    house := r.house
    car := r.car
    registered_city := r.registered_city
    live_city := r.live_city
    native_place := r.native_place
    original_family := r.original_family
    is_single_child := r.is_single_child
    match_requirement := r.match_requirement
    introductions := r.introductions
    custom_level := r.custom_level
    comments := r.comments.map PyCommentElem.dictData
    is_public := r.is_public
    created_at := some r.created_at }

/-- `SqlAlchemyDB.get` (utils/rldb.py lines 90–99) on the `customs` table: first
row with the given id and `deleted_at IS NULL`. -/
def rldbGetCustom (st : List CustomRow) (cid : String) : Option CustomRow :=
  st.find? (fun r => decide (r.id = cid) && decide (r.deleted_at = none))

/-- The attribute copy performed by `session.merge` on the transient row built by
`Custom.to_rldb_model`: every structured column is overwritten with the business
object's value (`cms` is the serialized-and-reloaded comments payload);
`created_at` / `updated_at` / `deleted_at` are never set on the transient object
and are left as loaded. -/
def mergeFields (r : CustomRow) (c : Custom) (cms : List Comment) : CustomRow :=
  { r with
    user_id := c.user_id
    name := c.name
    gender := c.gender
    birth := c.birth
    phone := c.phone
    email := c.email
    height := c.height
    weight := c.weight
    images := c.images
    scores := c.scores
    degree := c.degree
    academy := c.academy
    occupation := c.occupation
    income := c.income
    assets := c.assets
    current_assets := c.current_assets
    house := c.house
    car := c.car
    registered_city := c.registered_city
    live_city := c.live_city
    native_place := c.native_place
    original_family := c.original_family
    is_single_child := c.is_single_child
    match_requirement := c.match_requirement
    introductions := c.introductions
    custom_level := c.custom_level
    comments := cms
    is_public := c.is_public }

/-- The `session.merge` half of `SqlAlchemyDB.upsert` followed by the flush: if
the copied attributes produce no net change, the unit of work emits no UPDATE
statement and the `updated_at` column's `onupdate` never fires, so the row is
untouched; only when some attribute actually changed does the UPDATE run and
refresh `updated_at`. -/
def mergeCustom (now : Nat) (r : CustomRow) (c : Custom) (cms : List Comment) :
    CustomRow :=
  let merged := mergeFields r c cms
  if merged = r then r else { merged with updated_at := now }

/-- A fresh `customs` row for the `session.add` half of `SqlAlchemyDB.upsert`:
the transient object's columns plus the server timestamp defaults. -/
def newCustomRow (now : Nat) (c : Custom) (cms : List Comment) : CustomRow :=
  { id := c.id
    user_id := c.user_id
    name := c.name
    gender := c.gender
    birth := c.birth
    phone := c.phone
    email := c.email
    height := c.height
    weight := c.weight
    images := c.images
    scores := c.scores
    degree := c.degree
    academy := c.academy
    occupation := c.occupation
    income := c.income
    assets := c.assets
    current_assets := c.current_assets
    house := c.house
    car := c.car
    registered_city := c.registered_city
    live_city := c.live_city
    native_place := c.native_place
    original_family := c.original_family
    is_single_child := c.is_single_child
    match_requirement := c.match_requirement
    introductions := c.introductions
    custom_level := c.custom_level
    comments := cms
    is_public := c.is_public
    created_at := now
    updated_at := now
    deleted_at := none }

/-- The `session.add` half of `SqlAlchemyDB.upsert`: a fresh row with the server
timestamp defaults; a duplicate primary key makes the commit raise. -/
def insertCustom (now : Nat) (st : List CustomRow) (c : Custom)
    (cms : List Comment) : Except String (List CustomRow) :=
  if st.any (fun r => decide (r.id = c.id)) then
    Except.error "IntegrityError: duplicate primary key"
  else
    Except.ok (st ++ [newCustomRow now c cms])

/-- `SqlAlchemyDB.upsert` (utils/rldb.py lines 77–82): merge when a live row with
the (non-blank) id exists, insert otherwise. -/
def upsertCustom (now : Nat) (st : List CustomRow) (c : Custom)
    (cms : List Comment) : Except String (List CustomRow) :=
  if c.id ≠ "" ∧ (rldbGetCustom st c.id).isSome then
    Except.ok (st.map (fun r => if r.id = c.id then mergeCustom now r c cms else r))
  else
    insertCustom now st c cms

/-- The `json.dumps` of the comments list inside `Custom.to_rldb_model`: plain
dicts serialize back to the stored JSON array, but a `Comment` instance is not
JSON serializable and `json.dumps` raises `TypeError` (caught by
`CustomService.save`'s `try`). -/
def encodeComments : List PyCommentElem → Except String (List Comment)
  | [] => Except.ok []
  | PyCommentElem.dictData cm :: rest =>
    (encodeComments rest).map (fun l => cm :: l)
  | PyCommentElem.obj _ :: _ =>
    Except.error "TypeError: Object of type Comment is not JSON serializable"

/-- `CustomService.save` (services/custom.py lines 17–35): draw an id when blank,
serialize via `to_rldb_model`, upsert, and turn any raised exception (from the
serialization or from the database) into `RLDB_ERROR` with an empty returned id
(the failed transaction leaves the table unchanged). -/
def customSave (now : Nat) (genId : String) (st : List CustomRow) (c : Custom) :
    List CustomRow × String × err :=
  let cid := if c.id = "" then genId else c.id
  let c1 := { c with id := cid }
  match encodeComments c1.comments with
  | Except.error _ => (st, "", error ErrorCode.RLDB_ERROR "Failed to save custom data")
  | Except.ok cms =>
    match upsertCustom now st c1 cms with
    | Except.ok st1 => (st1, cid, error ErrorCode.SUCCESS "")
    | Except.error _ => (st, "", error ErrorCode.RLDB_ERROR "Failed to save custom data")

/-- `CustomService.delete` (services/custom.py lines 37–52): look the record up
(live rows only); report `RLDB_NOT_FOUND` when absent, otherwise hard-delete the
row via `session.delete`. -/
def customDelete (st : List CustomRow) (cid : String) : List CustomRow × err :=
  match rldbGetCustom st cid with
  | none => (st, error ErrorCode.RLDB_NOT_FOUND "Custom not found.")
  | some _ => (st.filter (fun r => decide (r.id ≠ cid)), error ErrorCode.SUCCESS "")

/-- `CustomService.get` (services/custom.py lines 54–70). -/
def customGet (st : List CustomRow) (cid : String) : Option Custom × err :=
  match rldbGetCustom st cid with
  | none => (none, error ErrorCode.RLDB_NOT_FOUND "Custom not found.")
  | some r => (some (fromRLDBModel r), error ErrorCode.SUCCESS "")

/-- Outcome of a service method as seen by its caller: either the returned
`error` object, or an uncaught Python exception propagating out of the method. -/
inductive PyResult where
  | ret (e : err) : PyResult
  | raised (msg : String) : PyResult
deriving DecidableEq, Repr

/-- The `target_comment` search loop of `update_comment`: `comment.id` is
attribute access, which works on `Comment` instances but raises
`AttributeError` on the plain dicts that `from_rldb_model` produces. -/
def findCommentPy (comid : String) :
    List PyCommentElem → Except String (Option Comment)
  | [] => Except.ok none
  | PyCommentElem.dictData _ :: _ =>
    Except.error "AttributeError: 'dict' object has no attribute 'id'"
  | PyCommentElem.obj cm :: rest =>
    if cm.id = comid then Except.ok (some cm) else findCommentPy comid rest

/-- The in-place mutation of the found comment in `update_comment`: the first
`Comment` instance with the id gets the new content and a fresh `updated_at`
(this point is reached only when the scan returned an instance, so every
earlier element is an instance with a different id). -/
def updateFirstCommentPy (comid content : String) (now : Nat) :
    List PyCommentElem → List PyCommentElem
  | [] => []
  | PyCommentElem.obj cm :: rest =>
    if cm.id = comid then
      PyCommentElem.obj { cm with content := content, updated_at := now } :: rest
    else PyCommentElem.obj cm :: updateFirstCommentPy comid content now rest
  | e :: rest => e :: updateFirstCommentPy comid content now rest

/-- `CustomService.update_comment` (services/custom.py lines 119–149): load the
record, scan for the comment (raising `AttributeError` on dict elements), refuse
a caller that is not the comment's author, else mutate and save.  Returns the
post-state of the `customs` table and the outcome. -/
def updateComment (now : Nat) (st : List CustomRow)
    (cid comid content uid : String) : List CustomRow × PyResult :=
  match customGet st cid with
  | (none, e) => (st, PyResult.ret e)
  | (some c, _) =>
    match findCommentPy comid c.comments with
    | Except.error msg => (st, PyResult.raised msg)
    | Except.ok none =>
      (st, PyResult.ret (error ErrorCode.MODEL_NOT_FOUND "Comment not found"))
    | Except.ok (some target) =>
      if target.user_id ≠ uid then
        (st, PyResult.ret (error ErrorCode.PERMISSION_DENIED
          "Permission denied: only author can update comment"))
      else
        let c1 := { c with
          comments := updateFirstCommentPy comid content now c.comments }
        let res := customSave now "" st c1
        (res.1, PyResult.ret res.2.2)

/-- Result of the scan loop of `delete_comment`. -/
inductive ScanOutcome where
  | raised (msg : String) : ScanOutcome
  | errored (e : err) : ScanOutcome
  | popped (cms : List PyCommentElem) : ScanOutcome
deriving DecidableEq, Repr

/-- The scan loop of `delete_comment`: `comment.id` raises `AttributeError` on a
dict element; at the first matching `Comment` instance the author check happens
before the index is recorded — a mismatch returns `PERMISSION_DENIED`, a match
pops the comment; no match at all is `MODEL_NOT_FOUND`. -/
def delCommentScanPy (comid uid : String) : List PyCommentElem → ScanOutcome
  | [] => ScanOutcome.errored (error ErrorCode.MODEL_NOT_FOUND "Comment not found")
  | PyCommentElem.dictData _ :: _ =>
    ScanOutcome.raised "AttributeError: 'dict' object has no attribute 'id'"
  | PyCommentElem.obj cm :: rest =>
    if cm.id = comid then
      if cm.user_id ≠ uid then
        ScanOutcome.errored (error ErrorCode.PERMISSION_DENIED
          "Permission denied: only author can delete comment")
      else ScanOutcome.popped rest
    else
      match delCommentScanPy comid uid rest with
      | ScanOutcome.popped rest1 => ScanOutcome.popped (PyCommentElem.obj cm :: rest1)
      | out => out

/-- `CustomService.delete_comment` (services/custom.py lines 151–178). -/
def deleteComment (now : Nat) (st : List CustomRow) (cid comid uid : String) :
    List CustomRow × PyResult :=
  match customGet st cid with
  | (none, e) => (st, PyResult.ret e)
  | (some c, _) =>
    match delCommentScanPy comid uid c.comments with
    | ScanOutcome.raised msg => (st, PyResult.raised msg)
    | ScanOutcome.errored e => (st, PyResult.ret e)
    | ScanOutcome.popped cms =>
      let res := customSave now "" st { c with comments := cms }
      (res.1, PyResult.ret res.2.2)

/-- An equality filter usable as a `filter_by(**filters)` keyword for the
`customs` table (`SqlAlchemyDB.query`). -/
inductive CCond where
  | user_id (v : String) : CCond
  | name (v : String) : CCond
  | gender (v : String) : CCond
  | is_public (v : Bool) : CCond
deriving DecidableEq

/-- Satisfaction of one `filter_by` equality condition by a `customs` row. -/
def ccondHolds (r : CustomRow) : CCond → Bool
  | CCond.user_id v => decide (r.user_id = v)
  | CCond.name v => decide (r.name = v)
  | CCond.gender v => decide (r.gender = v)
  | CCond.is_public v => decide (r.is_public = v)

/-- Sort relation of the Python-side `results.sort(key=..., reverse=True)` in
`SqlAlchemyDB.query`: `created_at` descending. -/
def createdGeC (r s : CustomRow) : Prop :=
  s.created_at ≤ r.created_at

instance : DecidableRel createdGeC :=
  fun r s => inferInstanceAs (Decidable (s.created_at ≤ r.created_at))

instance : IsTotal CustomRow createdGeC :=
  ⟨fun r s => le_total s.created_at r.created_at⟩

instance : IsTrans CustomRow createdGeC :=
  ⟨fun _ _ _ h1 h2 => le_trans h2 h1⟩

/-- `SqlAlchemyDB.query` (utils/rldb.py lines 101–119) on the `customs` table:
WHERE `deleted_at IS NULL` and the filters, a LIMIT clause only when `limit` is
non-zero and an OFFSET clause only when `offset` is non-zero (`if limit:` /
`if offset:`; SQL applies OFFSET before LIMIT), then the Python-side stable sort
by `created_at` descending. -/
def rldbQueryCustoms (st : List CustomRow) (conds : List CCond)
    (limit offset : Nat) : List CustomRow :=
  let sel := st.filter (fun r => decide (r.deleted_at = none) && conds.all (ccondHolds r))
  let afterOffset := sel.drop offset
  let page := if limit = 0 then afterOffset else afterOffset.take limit
  page.insertionSort createdGeC

/-- Some record values used as concrete inputs by the closed theorems below. -/
def mkPeopleRow (pid : String) (created : Nat) (del : Option Nat) : PeopleRow :=
  { id := pid
    name := none
    contact := none
    gender := none
    age := none
    height := none
    marital_status := none
    match_requirement := none
    introduction := none
    comments := none
    cover := none
    created_at := created
    updated_at := created
    deleted_at := del }

/-- A concrete `People` value with an empty id (so `save` draws a fresh one). -/
def samplePeople : People :=
  { id := ""
    name := some "A"
    contact := none
    gender := some "male"
    age := some 30
    height := some 175
    marital_status := none
    match_requirement := none
    introduction := Json.obj []
    comments := Json.obj []
    cover := none }

/-- The same record with a populated id. -/
def samplePeopleR1 : People :=
  { samplePeople with id := "r1" }

/-- A constant serializer standing in for `json.dumps` in closed theorems. -/
def sampleDumps : Json → String :=
  fun _ => "{}"

/-- A parser that rejects everything, standing in for `json.loads` raising. -/
def sampleParseNone : String → Option Json :=
  fun _ => none

/-- A row whose `introduction` column holds text that is not valid JSON and whose
`comments` column is NULL. -/
def sampleBadRow : PeopleRow :=
  { mkPeopleRow "r9" 4 none with introduction := some "not json" }

/-- A concrete `Custom` business object. -/
def sampleCustom : Custom :=
  { id := "c1"
    user_id := "u1"
    name := "n"
    gender := "m"
    birth := 1990
    phone := ""
    email := ""
    height := 0
    weight := 0
    images := []
    scores := 0
    degree := ""
    academy := ""
    occupation := ""
    income := 0
    assets := 0
    current_assets := 0
    house := ""
    car := ""
    registered_city := ""
    live_city := ""
    native_place := ""
    original_family := ""
    is_single_child := false
    match_requirement := ""
    introductions := []
    custom_level := ""
    comments := []
    is_public := false
    created_at := none }

/-- A comment authored by user `alice`. -/
def aliceComment : Comment :=
  { id := "m1", user_id := "alice", content := "hi", created_at := 1, updated_at := 1 }

/-- A `customs` table holding one live record `c1` whose `comments` column
stores the JSON array with `aliceComment`'s data (one dict). -/
def sampleCState : List CustomRow :=
  [newCustomRow 1 sampleCustom [aliceComment]]

/-! ## Helper lemmas -/

theorem toPeople_id (parse : String → Option Json) (r : PeopleRow) :
    (toPeople parse r).id = r.id :=
  rfl

theorem find?_append_of_none {α : Type} (p : α → Bool) (l1 l2 : List α)
    (h : ∀ x ∈ l1, p x = false) : (l1 ++ l2).find? p = l2.find? p := by
  induction l1 with
  | nil => rfl
  | cons a l ih =>
    rw [List.cons_append, List.find?_cons_of_neg _ (by simp [h a (by simp)])]
    exact ih (fun x hx => h x (by simp [hx]))

theorem peopleSave_table (dumps : Json → String) (now : Nat) (genId : String)
    (vres : Except Unit (List String)) (st : List PeopleRow) (p : People)
    (hfresh : ∀ r ∈ st, r.id ≠ (if p.id = "" then genId else p.id)) :
    (peopleSave dumps now genId vres st p).1 =
      st ++ [parseFromPeople dumps now { p with id := if p.id = "" then genId else p.id }] := by
  have hany : (st.any fun r =>
      decide (r.id = ({ p with id := if p.id = "" then genId else p.id } : People).id)) = false := by
    rw [List.any_eq_false]
    intro r hr
    simpa using hfresh r hr
  rcases vres with e | l
  · simp [peopleSave, peopleInsert, hany]
  · by_cases hl : l.length = 0 <;> simp [peopleSave, peopleInsert, hany, hl]

/-! ## Claims -/

/-- C9: converting a stored relational row back to a `People` object is total (it
is a Lean function, so it cannot raise); if the stored `introduction` or
`comments` column text is NULL, empty, or rejected by the JSON parser, the
corresponding field of the returned `People` is the empty dict, and all other
columns are copied through unchanged. -/
theorem C9_row_rehydration_total (parse : String → Option Json) (r : PeopleRow) :
    ((toPeople parse r).id = r.id ∧ (toPeople parse r).name = r.name ∧
      (toPeople parse r).contact = r.contact ∧ (toPeople parse r).gender = r.gender ∧
      (toPeople parse r).age = r.age ∧ (toPeople parse r).height = r.height ∧
      (toPeople parse r).marital_status = r.marital_status ∧
      (toPeople parse r).match_requirement = r.match_requirement ∧
      (toPeople parse r).cover = r.cover) ∧
    ((r.introduction = none ∨ r.introduction = some "" ∨
        ∀ s, r.introduction = some s → parse s = none) →
      (toPeople parse r).introduction = Json.obj []) ∧
    ((r.comments = none ∨ r.comments = some "" ∨
        ∀ s, r.comments = some s → parse s = none) →
      (toPeople parse r).comments = Json.obj []) := by
  refine ⟨⟨rfl, rfl, rfl, rfl, rfl, rfl, rfl, rfl, rfl⟩, ?_, ?_⟩
  · intro h
    rcases h with h | h | h
    · simp [toPeople, loadsOrEmpty, h]
    · simp [toPeople, loadsOrEmpty, h]
    · cases hcol : r.introduction with
      | none => simp [toPeople, loadsOrEmpty, hcol]
      | some s =>
        have hp := h s hcol
        by_cases hs : s = "" <;> simp [toPeople, loadsOrEmpty, hcol, hs, hp]
  · intro h
    rcases h with h | h | h
    · simp [toPeople, loadsOrEmpty, h]
    · simp [toPeople, loadsOrEmpty, h]
    · cases hcol : r.comments with
      | none => simp [toPeople, loadsOrEmpty, hcol]
      | some s =>
        have hp := h s hcol
        by_cases hs : s = "" <;> simp [toPeople, loadsOrEmpty, hcol, hs, hp]

/-- Witness for C9 at a concrete row whose `introduction` text is not valid JSON
and whose `comments` column is NULL. -/
theorem C9_row_rehydration_total_witness :
    (toPeople sampleParseNone sampleBadRow).introduction = Json.obj [] ∧
    (toPeople sampleParseNone sampleBadRow).comments = Json.obj [] := by
  have h := C9_row_rehydration_total sampleParseNone sampleBadRow
  exact ⟨h.2.1 (Or.inr (Or.inr (fun s _ => rfl))), h.2.2 (Or.inl rfl)⟩

/-- C3, counterexample: with the relational insert succeeding and the vector-index
write failing (it returns an empty id list, upon which the code raises
`Exception("insert failed")`), `PeopleStore.save` does NOT complete successfully —
it ends in an error instead of returning the generated id — even though the
relational row was committed (a subsequent `find` of the generated id succeeds). -/
theorem C3_degraded_save_counterexample :
    (peopleSave sampleDumps 7 "g1" (Except.ok []) [] samplePeople).2 =
      Except.error "insert failed" ∧
    (peopleFind sampleParseNone
        (peopleSave sampleDumps 7 "g1" (Except.ok []) [] samplePeople).1 "g1").isSome = true :=
  ⟨rfl, rfl⟩

/-- C3, amended: if the search-index write fails during `save` (the call raises,
or returns an empty result list), `save` raises instead of returning the id; the
relational row is already committed, so a subsequent `find` of the id succeeds. -/
theorem C3_index_failure_aborts_save (dumps : Json → String) (now : Nat)
    (genId : String) (st : List PeopleRow) (p : People)
    (vres : Except Unit (List String))
    (hfresh : ∀ r ∈ st, r.id ≠ (if p.id = "" then genId else p.id))
    (hfail : vres = Except.error () ∨ vres = Except.ok []) :
    (∃ msg, (peopleSave dumps now genId vres st p).2 = Except.error msg) ∧
    ∀ parse, (peopleFind parse (peopleSave dumps now genId vres st p).1
        (if p.id = "" then genId else p.id)).isSome = true := by
  have htab := peopleSave_table dumps now genId vres st p hfresh
  constructor
  · have hany : (st.any fun r =>
        decide (r.id = ({ p with id := if p.id = "" then genId else p.id } : People).id)) = false := by
      rw [List.any_eq_false]
      intro r hr
      simpa using hfresh r hr
    rcases hfail with h | h <;> subst h
    · exact ⟨"vsdb insert raised", by simp [peopleSave, peopleInsert, hany]⟩
    · exact ⟨"insert failed", by simp [peopleSave, peopleInsert, hany]⟩
  · intro parse
    rw [htab]
    unfold peopleFind
    rw [find?_append_of_none _ st _ (by intro r hr; simp [hfresh r hr])]
    simp [parseFromPeople]

/-- Witness for C3's amended theorem at a concrete degraded save. -/
theorem C3_index_failure_aborts_save_witness :
    (∃ msg, (peopleSave sampleDumps 3 "w3" (Except.error ()) [] samplePeople).2 =
      Except.error msg) ∧
    (peopleFind sampleParseNone
        (peopleSave sampleDumps 3 "w3" (Except.error ()) [] samplePeople).1 "w3").isSome = true := by
  have h := C3_index_failure_aborts_save sampleDumps 3 "w3" [] samplePeople
    (Except.error ()) (by intro r hr; cases hr) (Or.inl rfl)
  exact ⟨h.1, h.2 sampleParseNone⟩

/-- C5, counterexample: `CustomService.delete` does not always report success —
on a never-existing id it reports `RLDB_NOT_FOUND`, and deleting the same id a
second time (after a successful first delete) reports `RLDB_NOT_FOUND` as well. -/
theorem C5_custom_delete_not_found_counterexample :
    (customDelete ([] : List CustomRow) "x").2.success = false ∧
    (customDelete (customDelete sampleCState "c1").1 "c1").2.success = false := by
  constructor
  · rfl
  · rfl

/-- C5, amended: `PeopleStore.delete` is idempotent as claimed — it reports
success for every id (absent, already soft-deleted, or deleted twice) as long as
its backend calls do not raise — but `CustomService.delete` instead reports
`RLDB_NOT_FOUND` (leaving the table untouched) when the id has no live row. -/
theorem C5_delete_idempotence_amended (now now2 : Nat) (st st2 : List PeopleRow)
    (archive archive2 : List String) (pfx pid : String)
    (cst : List CustomRow) (cid : String)
    (hmiss : rldbGetCustom cst cid = none) :
    (peopleDelete now st archive pfx (Except.ok ()) true pid).2.2 = Except.ok () ∧
    (peopleDelete now2 st2 archive2 pfx (Except.ok ()) true pid).2.2 = Except.ok () ∧
    (customDelete cst cid).2 = error ErrorCode.RLDB_NOT_FOUND "Custom not found." ∧
    (customDelete cst cid).1 = cst := by
  refine ⟨rfl, rfl, ?_, ?_⟩ <;> simp [customDelete, hmiss]

/-- Witness for C5's amended theorem: deleting the never-stored id `"x"` twice. -/
theorem C5_delete_idempotence_amended_witness :
    (peopleDelete 4 [mkPeopleRow "r1" 1 none] [] "" (Except.ok ()) true "x").2.2 =
      Except.ok () ∧
    (peopleDelete 5 (peopleDelete 4 [mkPeopleRow "r1" 1 none] [] "" (Except.ok ()) true "x").1
        [] "" (Except.ok ()) true "x").2.2 = Except.ok () ∧
    (customDelete ([] : List CustomRow) "x").2 =
      error ErrorCode.RLDB_NOT_FOUND "Custom not found." := by
  have h := C5_delete_idempotence_amended 4 5 [mkPeopleRow "r1" 1 none]
    (peopleDelete 4 [mkPeopleRow "r1" 1 none] [] "" (Except.ok ()) true "x").1
    [] [] "" "x" [] "x" rfl
  exact ⟨h.1, h.2.1, h.2.2.1⟩

/-- C6, counterexample: after the relational soft delete completed (step 1), a
raising search-index delete makes `PeopleStore.delete` end in an error — there is
no `try`/`except` around steps 2–3 — contradicting the claim that the reported
outcome stays success regardless. -/
theorem C6_delete_backend_failure_counterexample :
    (peopleDelete 9 [mkPeopleRow "r1" 3 none] [] "" (Except.error ()) true "r1").1 =
      [{ mkPeopleRow "r1" 3 none with deleted_at := some 9 }] ∧
    (peopleDelete 9 [mkPeopleRow "r1" 3 none] [] "" (Except.error ()) true "r1").2.2 =
      Except.error "vsdb delete raised" :=
  ⟨rfl, rfl⟩

/-- C6, amended: the relational soft delete of step 1 always takes effect and is
never rolled back, but `delete` reports success only when the search-index delete
and the archive listing both succeed — a raise in either propagates out of
`delete` as an error instead of being caught and logged. -/
theorem C6_delete_propagates_backend_errors (now : Nat) (st : List PeopleRow)
    (archive : List String) (pfx pid : String) (vd : Except Unit Unit)
    (obsOk : Bool) :
    (peopleDelete now st archive pfx vd obsOk pid).1 = softDeletePeoples now st pid ∧
    ((peopleDelete now st archive pfx vd obsOk pid).2.2 = Except.ok () ↔
      vd = Except.ok () ∧ obsOk = true) := by
  rcases vd with e | u
  · simp [peopleDelete]
  · cases obsOk <;> simp [peopleDelete]

/-- Witness for C6's amended theorem at a concrete failing delete. -/
theorem C6_delete_propagates_backend_errors_witness :
    (peopleDelete 9 [mkPeopleRow "r2" 3 none] [] "" (Except.ok ()) false "r2").1 =
      softDeletePeoples 9 [mkPeopleRow "r2" 3 none] "r2" ∧
    ¬ (peopleDelete 9 [mkPeopleRow "r2" 3 none] [] "" (Except.ok ()) false "r2").2.2 =
      Except.ok () := by
  have h := C6_delete_propagates_backend_errors 9 [mkPeopleRow "r2" 3 none] [] "" "r2"
    (Except.ok ()) false
  refine ⟨h.1, fun hc => ?_⟩
  exact Bool.false_ne_true ((h.2.mp hc).2)

/-- C8: the blob-archive cleanup of `PeopleStore.delete` does NOT remove the
objects under `peoples/{id}/`.  `Koodo.List` strips the full prefix from every
key it returns, and `Koodo.Del` prepends only the global `prefix_path`, so the
deletion targets `{prefix_path}detail.json` instead of
`{prefix_path}peoples/r1/detail.json`: with one archived object
`peoples/r1/detail.json` (and an empty global prefix), the archive is unchanged
after `delete` and still contains a key under the record's prefix. -/
theorem C8_blob_cleanup_leaves_object :
    (peopleDelete 2 [] ["peoples/r1/detail.json"] "" (Except.ok ()) true "r1").2.1 =
      ["peoples/r1/detail.json"] ∧
    strIsPrefixOf "peoples/r1/" "peoples/r1/detail.json" = true ∧
    (peopleDelete 2 [] ["peoples/r1/detail.json"] "" (Except.ok ()) true "r1").2.2 =
      Except.ok () := by
  refine ⟨?_, by decide, rfl⟩
  decide

/-- C4, counterexample: `PeopleStore.save` always issues `session.add` (an
INSERT); calling it twice with the same populated id `"r1"` and identical fields
does not succeed both times — the second call raises an `IntegrityError` instead
of updating the row in place. -/
theorem C4_double_save_counterexample :
    (peopleSave sampleDumps 1 "g" (Except.ok ["r1"]) [] samplePeopleR1).2 =
      Except.ok "r1" ∧
    (peopleSave sampleDumps 2 "g" (Except.ok ["r1"])
        (peopleSave sampleDumps 1 "g" (Except.ok ["r1"]) [] samplePeopleR1).1
        samplePeopleR1).2 =
      Except.error "IntegrityError: duplicate primary key" :=
  ⟨rfl, rfl⟩

/-- C4, amended: for `Save` backed by `SqlAlchemyDB.upsert` (`CustomService.save`),
a second save with the same populated id and identical (serializable) fields
succeeds and leaves exactly one live row with the given structured fields and an
unchanged `created_at`; but because the identical merge produces no net attribute
change, SQLAlchemy emits no UPDATE and `updated_at` is NOT refreshed either (the
column's `onupdate` fires only when something actually changed), so the surviving
row is exactly the one the first save inserted.  `PeopleStore.save`, by contrast,
inserts unconditionally, so its second call with the same id fails with a
duplicate-key conflict instead of updating in place. -/
theorem C4_upsert_idempotence_amended (t1 t2 : Nat) (g1 g2 : String)
    (st : List CustomRow) (c : Custom) (cms : List Comment) (hid : c.id ≠ "")
    (hfresh : ∀ r ∈ st, r.id ≠ c.id)
    (hser : encodeComments c.comments = Except.ok cms)
    (dumps : Json → String) (n1 n2 : Nat) (gi1 gi2 : String)
    (stp : List PeopleRow) (p : People) (v1 v2 : Except Unit (List String))
    (hpid : p.id ≠ "") (hpfresh : ∀ r ∈ stp, r.id ≠ p.id) :
    ((customSave t1 g1 st c).2.1 = c.id ∧
      (customSave t1 g1 st c).2.2.success = true ∧
      (customSave t2 g2 (customSave t1 g1 st c).1 c).2.1 = c.id ∧
      (customSave t2 g2 (customSave t1 g1 st c).1 c).2.2.success = true ∧
      (customSave t2 g2 (customSave t1 g1 st c).1 c).1.filter
          (fun r => decide (r.id = c.id)) =
        [newCustomRow t1 c cms]) ∧
    (peopleSave dumps n2 gi2 v2 (peopleSave dumps n1 gi1 v1 stp p).1 p).2 =
      Except.error "IntegrityError: duplicate primary key" := by
  have hcid : (if c.id = "" then g1 else c.id) = c.id := if_neg hid
  have hcid2 : (if c.id = "" then g2 else c.id) = c.id := if_neg hid
  have hc1 : ({ c with id := c.id } : Custom) = c := rfl
  have hget1 : rldbGetCustom st c.id = none := by
    apply List.find?_eq_none.mpr
    intro q hq
    simp [hfresh q hq]
  have hany1 : (st.any fun r => decide (r.id = c.id)) = false := by
    rw [List.any_eq_false]
    intro q hq
    simp [hfresh q hq]
  have hup1 : upsertCustom t1 st c cms = Except.ok (st ++ [newCustomRow t1 c cms]) := by
    rw [upsertCustom, if_neg (by rw [hget1]; rintro ⟨-, h2⟩; exact absurd h2 (by simp))]
    simp [insertCustom, hany1]
  have hs1 : customSave t1 g1 st c =
      (st ++ [newCustomRow t1 c cms], c.id, error ErrorCode.SUCCESS "") := by
    simp only [customSave, hcid, hc1, hser, hup1]
  have hget2 : rldbGetCustom (st ++ [newCustomRow t1 c cms]) c.id =
      some (newCustomRow t1 c cms) := by
    rw [rldbGetCustom,
      find?_append_of_none _ st _ (fun q hq => by simp [hfresh q hq])]
    simp [newCustomRow]
  have hmerge_new : mergeCustom t2 (newCustomRow t1 c cms) c cms =
      newCustomRow t1 c cms := by
    have hmf : mergeFields (newCustomRow t1 c cms) c cms = newCustomRow t1 c cms := rfl
    simp [mergeCustom, hmf]
  have hmapst : st.map
      (fun r => if r.id = c.id then mergeCustom t2 r c cms else r) = st := by
    clear hget1 hany1 hup1 hs1 hget2
    induction st with
    | nil => rfl
    | cons a l ih =>
      have ha := hfresh a (by simp)
      simp only [List.map_cons, if_neg ha]
      rw [ih (fun q hq => hfresh q (by simp [hq]))]
  have hup2 : upsertCustom t2 (st ++ [newCustomRow t1 c cms]) c cms =
      Except.ok (st ++ [newCustomRow t1 c cms]) := by
    rw [upsertCustom, if_pos ⟨hid, by rw [hget2]; rfl⟩]
    simp only [List.map_append, hmapst, List.map_cons, List.map_nil]
    rw [if_pos (show (newCustomRow t1 c cms).id = c.id from rfl), hmerge_new]
  have hs2 : customSave t2 g2 (st ++ [newCustomRow t1 c cms]) c =
      (st ++ [newCustomRow t1 c cms], c.id, error ErrorCode.SUCCESS "") := by
    simp only [customSave, hcid2, hc1, hser, hup2]
  have hfilst : st.filter (fun r => decide (r.id = c.id)) = [] := by
    rw [List.filter_eq_nil_iff]
    intro q hq
    simp [hfresh q hq]
  refine ⟨?_, ?_⟩
  · rw [hs1]
    refine ⟨rfl, rfl, ?_, ?_, ?_⟩
    · rw [hs2]
    · rw [hs2]
      rfl
    · rw [hs2]
      simp only [List.filter_append, hfilst, List.nil_append]
      rw [List.filter_cons]
      simp [newCustomRow]
  · have hpif1 : (if p.id = "" then gi1 else p.id) = p.id := if_neg hpid
    have hpif2 : (if p.id = "" then gi2 else p.id) = p.id := if_neg hpid
    have htab := peopleSave_table dumps n1 gi1 v1 stp p
      (fun q hq => by rw [hpif1]; exact hpfresh q hq)
    rw [htab]
    have hins2 : peopleInsert dumps n2
        (stp ++ [parseFromPeople dumps n1 { p with id := if p.id = "" then gi1 else p.id }])
        { p with id := if p.id = "" then gi2 else p.id } =
        Except.error "IntegrityError: duplicate primary key" := by
      rw [peopleInsert, if_pos]
      rw [List.any_append]
      simp [parseFromPeople, hpif1, hpif2]
    rw [peopleSave]
    simp only [hins2]

/-- Witness for C4's amended theorem at a concrete double save: the surviving
row still carries `updated_at = 1` from the first save. -/
theorem C4_upsert_idempotence_amended_witness :
    (customSave 2 "" (customSave 1 "" [] sampleCustom).1 sampleCustom).1.filter
        (fun r => decide (r.id = sampleCustom.id)) =
      [newCustomRow 1 sampleCustom []] ∧
    (peopleSave sampleDumps 6 "g" (Except.ok ["r1"])
        (peopleSave sampleDumps 5 "g" (Except.ok ["r1"]) [] samplePeopleR1).1
        samplePeopleR1).2 =
      Except.error "IntegrityError: duplicate primary key" := by
  have h := C4_upsert_idempotence_amended 1 2 "" "" [] sampleCustom [] (by decide)
    (by intro r hr; cases hr) rfl sampleDumps 5 6 "g" "g" [] samplePeopleR1
    (Except.ok ["r1"]) (Except.ok ["r1"]) (by decide) (by intro r hr; cases hr)
  exact ⟨h.1.2.2.2.2, h.2⟩

/-- C7, counterexample: two live rows share `created_at = 5`; the backend returns
the row with id `"b"` first, and `PeopleStore.query` (whose only reordering is a
stable Python sort on `created_at`) returns them in that order, so the tie is NOT
broken by id ascending (`"a" < "b"` would require the `"a"` row first). -/
theorem C7_query_tie_order_counterexample :
    peopleQueryRows [mkPeopleRow "b" 5 none, mkPeopleRow "a" 5 none] [] 10 0 =
      [mkPeopleRow "b" 5 none, mkPeopleRow "a" 5 none] ∧
    (mkPeopleRow "b" 5 none).created_at = (mkPeopleRow "a" 5 none).created_at ∧
    (mkPeopleRow "a" 5 none).id.data < (mkPeopleRow "b" 5 none).id.data := by
  refine ⟨by decide, rfl, by decide⟩

/-- C7, amended: `query` returns exactly the live rows matching the filters of
the `limit`/`offset` page (the page is cut from the backend's row order BEFORE
any ordering is applied), sorted by `created_at` descending by a stable sort, so
ties keep the backend's return order — there is no id-ascending tie-break and no
ORDER BY in the SQL, hence no determinism guarantee.  The same holds for
`SqlAlchemyDB.query`, whose `if limit:` guard additionally means `limit = 0`
disables the LIMIT clause. -/
theorem C7_query_pagination_order_amended (st : List PeopleRow)
    (conds : List PCond) (limit offset : Nat) (cst : List CustomRow)
    (cconds : List CCond) (cl co : Nat) :
    ((peopleQueryRows st conds limit offset).Pairwise createdGe ∧
      (peopleQueryRows st conds limit offset).Perm
        (((st.filter (fun r => conds.all (pcondHolds r) &&
            decide (r.deleted_at = none))).drop offset).take limit) ∧
      ∀ r ∈ peopleQueryRows st conds limit offset,
        r.deleted_at = none ∧ conds.all (pcondHolds r) = true) ∧
    ((rldbQueryCustoms cst cconds cl co).Pairwise createdGeC ∧
      (rldbQueryCustoms cst cconds cl co).Perm
        (if cl = 0 then
          (cst.filter (fun r => decide (r.deleted_at = none) &&
            cconds.all (ccondHolds r))).drop co
         else
          ((cst.filter (fun r => decide (r.deleted_at = none) &&
            cconds.all (ccondHolds r))).drop co).take cl) ∧
      ∀ r ∈ rldbQueryCustoms cst cconds cl co,
        r.deleted_at = none ∧ cconds.all (ccondHolds r) = true) := by
  refine ⟨⟨List.sorted_insertionSort createdGe _, List.perm_insertionSort createdGe _, ?_⟩,
    ⟨List.sorted_insertionSort createdGeC _, ?_, ?_⟩⟩
  · intro r hr
    have h1 : r ∈ ((st.filter (fun q => conds.all (pcondHolds q) &&
        decide (q.deleted_at = none))).drop offset).take limit :=
      (List.perm_insertionSort createdGe _).subset hr
    have h2 := List.mem_filter.mp (List.mem_of_mem_drop (List.mem_of_mem_take h1))
    have h3 := h2.2
    rw [Bool.and_eq_true] at h3
    exact ⟨of_decide_eq_true h3.2, h3.1⟩
  · by_cases hcl : cl = 0 <;>
      simpa [rldbQueryCustoms, hcl] using List.perm_insertionSort createdGeC _
  · intro r hr
    have h1 : r ∈ (if cl = 0 then
        (cst.filter (fun q => decide (q.deleted_at = none) &&
          cconds.all (ccondHolds q))).drop co
       else
        ((cst.filter (fun q => decide (q.deleted_at = none) &&
          cconds.all (ccondHolds q))).drop co).take cl) :=
      (List.perm_insertionSort createdGeC _).subset hr
    have h2 : r ∈ cst.filter (fun q => decide (q.deleted_at = none) &&
        cconds.all (ccondHolds q)) := by
      by_cases hcl : cl = 0
      · rw [if_pos hcl] at h1
        exact List.mem_of_mem_drop h1
      · rw [if_neg hcl] at h1
        exact List.mem_of_mem_drop (List.mem_of_mem_take h1)
    have h3 := (List.mem_filter.mp h2).2
    rw [Bool.and_eq_true] at h3
    exact ⟨of_decide_eq_true h3.1, h3.2⟩

/-- Witness for C7's amended theorem at a concrete table and page. -/
theorem C7_query_pagination_order_amended_witness :
    (peopleQueryRows [mkPeopleRow "b" 5 none, mkPeopleRow "a" 7 (some 8)] [] 10 0).Pairwise
      createdGe ∧
    ∀ r ∈ peopleQueryRows [mkPeopleRow "b" 5 none, mkPeopleRow "a" 7 (some 8)] [] 10 0,
      r.deleted_at = none ∧ ([] : List PCond).all (pcondHolds r) = true := by
  have h := C7_query_pagination_order_amended
    [mkPeopleRow "b" 5 none, mkPeopleRow "a" 7 (some 8)] [] 10 0 [] [] 0 0
  exact ⟨h.1.1, h.1.2.2⟩

theorem mem_peopleQueryRows {st : List PeopleRow} {conds : List PCond}
    {limit offset : Nat} {r : PeopleRow}
    (h : r ∈ peopleQueryRows st conds limit offset) :
    r ∈ st ∧ r.deleted_at = none ∧ conds.all (pcondHolds r) = true := by
  have h1 : r ∈ ((st.filter (fun q => conds.all (pcondHolds q) &&
      decide (q.deleted_at = none))).drop offset).take limit :=
    (List.perm_insertionSort createdGe _).subset h
  have h2 := List.mem_filter.mp (List.mem_of_mem_drop (List.mem_of_mem_take h1))
  have h3 := h2.2
  rw [Bool.and_eq_true] at h3
  exact ⟨h2.1, of_decide_eq_true h3.2, h3.1⟩

theorem mem_peopleSearchRows {hits : List Hit} {st : List PeopleRow} {r : PeopleRow}
    (h : r ∈ peopleSearchRows hits st) :
    r ∈ st ∧ r.deleted_at = none ∧ r.id ∈ hitIds hits := by
  have h1 : r ∈ searchLoad (hitIds hits) st :=
    (List.perm_insertionSort createdGe _).subset
      ((List.perm_insertionSort (rankLe (hitIds hits)) _).subset h)
  have h2 := List.mem_filter.mp h1
  have h3 := h2.2
  rw [Bool.and_eq_true] at h3
  exact ⟨h2.1, of_decide_eq_true h3.2, of_decide_eq_true h3.1⟩

theorem no_live_of_deleted {st : List PeopleRow} {d : String} {t : Nat}
    {r : PeopleRow} (hr : r ∈ st) (hid : r.id = d) (hdel : r.deleted_at = some t)
    (hnd : (st.map PeopleRow.id).Nodup) :
    ∀ q ∈ st, q.id = d → q.deleted_at ≠ none := by
  intro q hq hqd hqn
  have hqr : q = r := List.inj_on_of_nodup_map hnd hq hr (by rw [hqd, hid])
  rw [hqr, hdel] at hqn
  cases hqn

/-- C2: a soft-deleted id is invisible on every read path.  If the table holds a
row for `d` with non-null `deleted_at` (the state `delete` leaves behind) then
`find` reports not-found, `d` appears in no `query` result, and `d` appears in no
`search` result — even when the search index still returns `d` in its ranked
list, the id is silently dropped during rehydration and no partial record is
produced for it.  (The `Nodup` hypothesis is the primary-key uniqueness of the
`id` column.) -/
theorem C2_soft_delete_exclusion (parse : String → Option Json)
    (st : List PeopleRow) (d : String) (t : Nat) (r : PeopleRow)
    (hr : r ∈ st) (hid : r.id = d) (hdel : r.deleted_at = some t)
    (hnd : (st.map PeopleRow.id).Nodup) :
    peopleFind parse st d = none ∧
    (∀ conds limit offset,
      d ∉ (peopleQuery parse st conds limit offset).map People.id) ∧
    (∀ hits, d ∉ (peopleSearch parse hits st).map People.id) := by
  have hnolive := no_live_of_deleted hr hid hdel hnd
  refine ⟨?_, ?_, ?_⟩
  · have hfind : st.find?
        (fun q => decide (q.id = d) && decide (q.deleted_at = none)) = none := by
      apply List.find?_eq_none.mpr
      intro q hq
      rw [Bool.and_eq_true]
      rintro ⟨h1, h2⟩
      exact hnolive q hq (of_decide_eq_true h1) (of_decide_eq_true h2)
    rw [peopleFind, hfind]
    rfl
  · intro conds limit offset hmem
    rw [peopleQuery, List.map_map] at hmem
    obtain ⟨q, hq, hqd⟩ := List.mem_map.mp hmem
    have hqid : q.id = d := hqd
    have hm := mem_peopleQueryRows hq
    exact hnolive q hm.1 hqid hm.2.1
  · intro hits hmem
    rw [peopleSearch, List.map_map] at hmem
    obtain ⟨q, hq, hqd⟩ := List.mem_map.mp hmem
    have hqid : q.id = d := hqd
    have hm := mem_peopleSearchRows hq
    exact hnolive q hm.1 hqid hm.2.1

/-- Witness for C2 on a concrete table where `"d"` is soft-deleted but the search
index still returns it. -/
theorem C2_soft_delete_exclusion_witness :
    peopleFind sampleParseNone
      [mkPeopleRow "d" 2 (some 3), mkPeopleRow "e" 1 none] "d" = none ∧
    "d" ∉ (peopleQuery sampleParseNone
      [mkPeopleRow "d" 2 (some 3), mkPeopleRow "e" 1 none] [] 10 0).map People.id ∧
    "d" ∉ (peopleSearch sampleParseNone [{ id := "d", distance := 0 }]
      [mkPeopleRow "d" 2 (some 3), mkPeopleRow "e" 1 none]).map People.id := by
  have h := C2_soft_delete_exclusion sampleParseNone
    [mkPeopleRow "d" 2 (some 3), mkPeopleRow "e" 1 none] "d" 3
    (mkPeopleRow "d" 2 (some 3)) (by simp) rfl rfl (by decide)
  exact ⟨h.1, h.2.1 [] 10 0, h.2.2 [{ id := "d", distance := 0 }]⟩

/-- C10: the author-permission contract is real in intent — the check is written
out in both methods, `PERMISSION_DENIED` exists for it, and `Comment.from_dict`
exists precisely to revive stored comment dicts — but the code never reaches it:
`Custom.from_rldb_model` leaves `comments` as the plain dicts `json.loads`
returns, so the attribute access `comment.id` in the scan loops raises
`AttributeError` on the first element for every record with a stored comment.
At the failing input (record `c1` with one stored comment by `alice`, caller
`eve`) both methods raise instead of returning the claimed permission-denied
error; the stored table is left unchanged only because the exception aborts the
methods. -/
theorem C10_comment_attribute_error :
    updateComment 9 sampleCState "c1" "m1" "new" "eve" =
      (sampleCState,
        PyResult.raised "AttributeError: 'dict' object has no attribute 'id'") ∧
    deleteComment 9 sampleCState "c1" "m1" "eve" =
      (sampleCState,
        PyResult.raised "AttributeError: 'dict' object has no attribute 'id'") :=
  ⟨rfl, rfl⟩

theorem hitIds_triple (a b c : String) (da db dc : Int)
    (ha : a ≠ "") (hb : b ≠ "") (hc : c ≠ "") :
    hitIds [{ id := a, distance := da }, { id := b, distance := db },
      { id := c, distance := dc }] = [a, b, c] := by
  simp [hitIds, ha, hb, hc]

theorem lastIdxFrom_eq_none {x : String} {l : List String} (h : x ∉ l) :
    ∀ i, lastIdxFrom x l i = none := by
  induction l with
  | nil => intro i; rfl
  | cons y ys ih =>
    intro i
    have hy : ¬ y = x := fun he => h (by simp [he.symm])
    simp only [lastIdxFrom, ih (fun hm => h (by simp [hm])), if_neg hy]

theorem orderMapGet_head (a : String) (l : List String) (h : a ∉ l) :
    orderMapGet (a :: l) a = 0 := by
  simp [orderMapGet, lastIdxFrom, lastIdxFrom_eq_none h]

theorem orderMapGet_second (a b : String) (l : List String) (h : b ∉ l) :
    orderMapGet (a :: b :: l) b = 1 := by
  simp [orderMapGet, lastIdxFrom, lastIdxFrom_eq_none h]

theorem orderMapGet_third (a b c : String) : orderMapGet [a, b, c] c = 2 := by
  simp [orderMapGet, lastIdxFrom]

/-- C1: search rank preservation.  If the index returns the ranked id list
`[a, b, c]` (in that order, with distinct non-empty ids) and all three ids have
live rows in the relational table (whose `id` column is a primary key, hence
`Nodup`), then `search` returns the rehydrated records exactly in the order
`[a, b, c]` — the index's rank order, regardless of the batch-load order (the
order of `st`) and of `created_at`. -/
theorem C1_search_rank_preservation (parse : String → Option Json)
    (a b c : String) (da db dc : Int) (st : List PeopleRow)
    (ha : a ≠ "") (hb : b ≠ "") (hc : c ≠ "")
    (hab : a ≠ b) (hac : a ≠ c) (hbc : b ≠ c)
    (hnd : (st.map PeopleRow.id).Nodup)
    (hla : ∃ r ∈ st, r.id = a ∧ r.deleted_at = none)
    (hlb : ∃ r ∈ st, r.id = b ∧ r.deleted_at = none)
    (hlc : ∃ r ∈ st, r.id = c ∧ r.deleted_at = none) :
    (peopleSearch parse [{ id := a, distance := da }, { id := b, distance := db },
      { id := c, distance := dc }] st).map People.id = [a, b, c] := by
  set hits : List Hit := [{ id := a, distance := da }, { id := b, distance := db },
    { id := c, distance := dc }] with hhits
  have hpids : hitIds hits = [a, b, c] := hitIds_triple a b c da db dc ha hb hc
  have hrows : peopleSearchRows hits st =
      ((searchLoad [a, b, c] st).insertionSort createdGe).insertionSort
        (rankLe [a, b, c]) := by
    simp only [peopleSearchRows, hpids]
  have hmemL : ∀ x : PeopleRow, x ∈ searchLoad [a, b, c] st ↔
      x ∈ st ∧ x.id ∈ ([a, b, c] : List String) ∧ x.deleted_at = none := by
    intro x
    simp [searchLoad, List.mem_filter, and_assoc]
  have hLsub : List.Sublist (searchLoad [a, b, c] st) st := List.filter_sublist st
  have hndL : ((searchLoad [a, b, c] st).map PeopleRow.id).Nodup :=
    (hLsub.map PeopleRow.id).nodup hnd
  have hndabc : ([a, b, c] : List String).Nodup := by simp [hab, hac, hbc]
  have hidsmem : ∀ x : String,
      x ∈ (searchLoad [a, b, c] st).map PeopleRow.id ↔ x ∈ ([a, b, c] : List String) := by
    intro x
    constructor
    · intro hx
      obtain ⟨q, hq, hqx⟩ := List.mem_map.mp hx
      rw [← hqx]
      exact ((hmemL q).mp hq).2.1
    · intro hx
      have hx3 : x = a ∨ x = b ∨ x = c := by simpa using hx
      rcases hx3 with rfl | rfl | rfl
      · obtain ⟨r, hr, hrid, hrdel⟩ := hla
        exact List.mem_map.mpr ⟨r, (hmemL r).mpr ⟨hr, by rw [hrid]; simp, hrdel⟩, hrid⟩
      · obtain ⟨r, hr, hrid, hrdel⟩ := hlb
        exact List.mem_map.mpr ⟨r, (hmemL r).mpr ⟨hr, by rw [hrid]; simp, hrdel⟩, hrid⟩
      · obtain ⟨r, hr, hrid, hrdel⟩ := hlc
        exact List.mem_map.mpr ⟨r, (hmemL r).mpr ⟨hr, by rw [hrid]; simp, hrdel⟩, hrid⟩
  have hpermIds : ((searchLoad [a, b, c] st).map PeopleRow.id).Perm [a, b, c] :=
    (List.perm_ext_iff_of_nodup hndL hndabc).mpr hidsmem
  have hFperm : (peopleSearchRows hits st).Perm (searchLoad [a, b, c] st) := by
    rw [hrows]
    exact (List.perm_insertionSort _ _).trans (List.perm_insertionSort _ _)
  have hFsorted : (peopleSearchRows hits st).Pairwise (rankLe [a, b, c]) := by
    rw [hrows]
    exact List.sorted_insertionSort _ _
  have hFids : ((peopleSearchRows hits st).map PeopleRow.id).Perm [a, b, c] :=
    (hFperm.map PeopleRow.id).trans hpermIds
  have hrank_a : orderMapGet [a, b, c] a = 0 :=
    orderMapGet_head a [b, c] (by simp [hab, hac])
  have hrank_b : orderMapGet [a, b, c] b = 1 :=
    orderMapGet_second a b [c] (by simp [hbc])
  have hrank_c : orderMapGet [a, b, c] c = 2 := orderMapGet_third a b c
  have hranks : (peopleSearchRows hits st).map
      (fun r => orderMapGet [a, b, c] r.id) = [0, 1, 2] := by
    apply List.eq_of_perm_of_sorted (r := ((· ≤ ·) : Nat → Nat → Prop))
    · have h1 : (peopleSearchRows hits st).map (fun r => orderMapGet [a, b, c] r.id)
          = ((peopleSearchRows hits st).map PeopleRow.id).map (orderMapGet [a, b, c]) := by
        rw [List.map_map]
        rfl
      rw [h1]
      have h2 := hFids.map (orderMapGet [a, b, c])
      have h3 : ([a, b, c].map (orderMapGet [a, b, c])) = [0, 1, 2] := by
        simp only [List.map_cons, List.map_nil]
        rw [hrank_a, hrank_b, hrank_c]
      rw [h3] at h2
      exact h2
    · exact List.Pairwise.map (fun r : PeopleRow => orderMapGet [a, b, c] r.id)
        (fun _ _ h => h) hFsorted
    · simp [List.sorted_cons]
  have hlen : (peopleSearchRows hits st).length = 3 := by
    have := congrArg List.length hranks
    simpa using this
  obtain ⟨x, y, z, hFl⟩ := List.length_eq_three.mp hlen
  rw [hFl] at hranks
  simp only [List.map_cons, List.map_nil, List.cons.injEq, and_true] at hranks
  obtain ⟨hrx, hry, hrz⟩ := hranks
  have hmem3 : ∀ w : PeopleRow, w ∈ ([x, y, z] : List PeopleRow) →
      w.id ∈ ([a, b, c] : List String) := by
    intro w hw
    have : w ∈ searchLoad [a, b, c] st := (hFl ▸ hFperm).subset hw
    exact ((hmemL w).mp this).2.1
  have hxid : x.id = a := by
    have hx3 : x.id = a ∨ x.id = b ∨ x.id = c := by simpa using hmem3 x (by simp)
    rcases hx3 with h | h | h
    · exact h
    · rw [h, hrank_b] at hrx
      exact absurd hrx (by decide)
    · rw [h, hrank_c] at hrx
      exact absurd hrx (by decide)
  have hyid : y.id = b := by
    have hy3 : y.id = a ∨ y.id = b ∨ y.id = c := by simpa using hmem3 y (by simp)
    rcases hy3 with h | h | h
    · rw [h, hrank_a] at hry
      exact absurd hry (by decide)
    · exact h
    · rw [h, hrank_c] at hry
      exact absurd hry (by decide)
  have hzid : z.id = c := by
    have hz3 : z.id = a ∨ z.id = b ∨ z.id = c := by simpa using hmem3 z (by simp)
    rcases hz3 with h | h | h
    · rw [h, hrank_a] at hrz
      exact absurd hrz (by decide)
    · rw [h, hrank_b] at hrz
      exact absurd hrz (by decide)
    · exact h
  rw [peopleSearch, hFl]
  simp only [List.map_cons, List.map_nil, toPeople_id]
  rw [hxid, hyid, hzid]

/-- Witness for C1 on a concrete table whose backend order and `created_at`
order both differ from the index's rank order. -/
theorem C1_search_rank_preservation_witness :
    (peopleSearch sampleParseNone
      [{ id := "a", distance := 0 }, { id := "b", distance := 1 },
        { id := "c", distance := 2 }]
      [mkPeopleRow "b" 1 none, mkPeopleRow "a" 2 none,
        mkPeopleRow "c" 3 none]).map People.id = ["a", "b", "c"] := by
  exact C1_search_rank_preservation sampleParseNone "a" "b" "c" 0 1 2
    [mkPeopleRow "b" 1 none, mkPeopleRow "a" 2 none, mkPeopleRow "c" 3 none]
    (by decide) (by decide) (by decide) (by decide) (by decide) (by decide)
    (by decide) (by decide) (by decide) (by decide)

end IfU
